import Mathlib

/-!
# DATA-TOOL/server.js: the check route handlers

A shallow embedding of the sixteen Express route handlers of `server.js` and of its
error middleware.

* JavaScript values are the plain data values a query can hand back (`JSVal`).  Numbers
  are IEEE-754 doubles: a finite value is carried as the rational it denotes, next to
  negative zero, `NaN` and the two infinities, and `-` and `/` round their exact result
  to the nearest double, ties to even (`roundDouble`).
* `await pool.query(..)` and `await replicaPool.query(..)` are answered by the `World`:
  for a statement and its parameters it gives the value the `await` evaluates to, or the
  error it throws.  Every query is taken to settle, and no handler sends the same
  statement twice to one pool.  Every statement handed to a pool is recorded in a trace.
* The identifiers `SomeDatabaseConnectionError`, `SomeQueryError` and `database` are used
  by `server.js` but declared nowhere in it; `Globals` says which of them are in scope, and
  `serverGlobals` is the scope `server.js` itself sets up (none of them).
* A handler is an `async` function: an error it throws rejects its promise.  `server.js`
  handles such a rejection nowhere, so the request is then left without a response.
* `console.error` only logs and is left out; `res.json` and `res.send` are taken to
  accept every body.
-/

namespace DataTool

/-! ## Values -/

/-- A JavaScript number: a finite value (`fin 0` is `+0`), `-0`, `NaN`, `Infinity` or
`-Infinity`. -/
inductive JSNum where
  | fin (q : ℚ)
  | negZero
  | nan
  | posInf
  | negInf
  deriving DecidableEq

/-- A JavaScript data value. -/
inductive JSVal where
  | undefined
  | null
  | bool (b : Bool)
  | num (n : JSNum)
  | str (s : String)
  | arr (xs : List JSVal)
  | obj (fields : List (String × JSVal))

/-- A thrown error: the constructor names on its prototype chain and its message. -/
structure JSError where
  classes : List String
  message : String
  deriving DecidableEq

/-- A `TypeError` with the given message. -/
def typeError (message : String) : JSError :=
  { classes := ["TypeError", "Error"], message := message }

/-- A `ReferenceError` raised by evaluating an identifier that is not in scope. -/
def referenceError (name : String) : JSError :=
  { classes := ["ReferenceError", "Error"], message := name ++ " is not defined" }

/-- Whether the number is `NaN`. -/
def JSNum.isNaN : JSNum → Bool
  | .nan => true
  | _ => false

/-- Whether the number is `Infinity` or `-Infinity`. -/
def JSNum.isInf : JSNum → Bool
  | .posInf => true
  | .negInf => true
  | _ => false

/-- The sign bit of the number. -/
def JSNum.isNeg : JSNum → Bool
  | .fin q => decide (q < 0)
  | .negZero => true
  | .negInf => true
  | _ => false

/-- The value of a finite number as a rational; both zeros have value 0. -/
def JSNum.value : JSNum → ℚ
  | .fin q => q
  | _ => 0

/-- The zero with the given sign bit. -/
def signedZero (neg : Bool) : JSNum := if neg then .negZero else .fin 0

/-- The infinity with the given sign bit. -/
def signedInf (neg : Bool) : JSNum := if neg then .negInf else .posInf

/-- The exponent of the binade of a positive value: the greatest `e` with `2 ^ e ≤ a`,
and `-1022` throughout the subnormal range. -/
def binade (a : ℚ) : ℤ := max (Int.log 2 a) (-1022)

/-- The integer nearest to `x`; a value halfway between two integers goes to the even
one. -/
def roundHalfEven (x : ℚ) : ℤ :=
  let f := ⌊x⌋
  if x - f < 1 / 2 then f
  else if 1 / 2 < x - f then f + 1
  else if f % 2 = 0 then f else f + 1

/-- The double that an exact result `x` is rounded to (round to nearest, ties to even):
53 significant bits, spacing `2 ^ (binade - 52)`, an infinity from `2 ^ 1024` on, and a
zero that keeps the sign of `x` on underflow. -/
def roundDouble (x : ℚ) : JSNum :=
  if x = 0 then .fin 0
  else
    let quantum : ℚ := 2 ^ (binade |x| - 52)
    let m : ℤ := roundHalfEven (|x| / quantum)
    if (2 : ℚ) ^ (1024 : ℤ) ≤ m * quantum then signedInf (decide (x < 0))
    else if m = 0 then signedZero (decide (x < 0))
    else if x < 0 then .fin (-(m * quantum)) else .fin (m * quantum)

/-- A rational that is the value of a double. -/
def isDouble (q : ℚ) : Prop := roundDouble q = .fin q

instance (q : ℚ) : Decidable (isDouble q) :=
  inferInstanceAs (Decidable (roundDouble q = .fin q))

/-- Number subtraction `x - y`.  An exact difference of zero is `+0`, except that
`-0 - +0` is `-0`. -/
def JSNum.sub (x y : JSNum) : JSNum :=
  if x.isNaN || y.isNaN then .nan
  else if x.isInf then (if y.isInf && (x.isNeg == y.isNeg) then .nan else x)
  else if y.isInf then signedInf (!y.isNeg)
  else if x.value - y.value = 0 then signedZero (x.isNeg && !y.isNeg)
  else roundDouble (x.value - y.value)

/-- Number division `x / y`.  The sign of a zero or infinite quotient is the exclusive
or of the operands' sign bits. -/
def JSNum.div (x y : JSNum) : JSNum :=
  if x.isNaN || y.isNaN then .nan
  else if x.isInf then (if y.isInf then .nan else signedInf (x.isNeg != y.isNeg))
  else if y.isInf then signedZero (x.isNeg != y.isNeg)
  else if y.value = 0 then
    (if x.value = 0 then .nan else signedInf (x.isNeg != y.isNeg))
  else if x.value = 0 then signedZero (x.isNeg != y.isNeg)
  else roundDouble (x.value / y.value)

/-- Number comparison `x > y`; any comparison with `NaN` is false and the two zeros
compare equal. -/
def JSNum.gt (x y : JSNum) : Bool :=
  if x.isNaN || y.isNaN then false
  else if x.isInf then (!x.isNeg && !(y.isInf && !y.isNeg))
  else if y.isInf then y.isNeg
  else decide (y.value < x.value)

/-- Lookup of an own property in an object's field list (the first entry of a name). -/
def lookupField : List (String × JSVal) → String → JSVal
  | [], _ => .undefined
  | (k, v) :: rest, name => if k = name then v else lookupField rest name

/-- The `length` of a string: its number of UTF-16 code units. -/
def utf16Length (s : String) : Nat :=
  (s.toList.map (fun c => if c.val < 0x10000 then 1 else 2)).sum

/-- Property read `v.name` for the property names `server.js` uses.  Reading a property
of `undefined` or `null` throws a `TypeError`; inherited properties are not modelled. -/
def getField (v : JSVal) (name : String) : Except JSError JSVal :=
  match v with
  | .undefined =>
      .error (typeError ("Cannot read properties of undefined (reading '" ++ name ++ "')"))
  | .null =>
      .error (typeError ("Cannot read properties of null (reading '" ++ name ++ "')"))
  | .bool _ => .ok .undefined
  | .num _ => .ok .undefined
  | .str s => if name = "length" then .ok (.num (.fin (utf16Length s))) else .ok .undefined
  | .arr xs => if name = "length" then .ok (.num (.fin xs.length)) else .ok .undefined
  | .obj fields => .ok (lookupField fields name)

/-- Element read `v[0]`.  On a string it is the first character (of a character outside
the basic plane only the first code unit, which is not told apart here). -/
def index0 (v : JSVal) : Except JSError JSVal :=
  match v with
  | .undefined => .error (typeError "Cannot read properties of undefined (reading '0')")
  | .null => .error (typeError "Cannot read properties of null (reading '0')")
  | .bool _ => .ok .undefined
  | .num _ => .ok .undefined
  | .str s =>
      match s.toList with
      | [] => .ok .undefined
      | c :: _ => .ok (.str (String.singleton c))
  | .arr xs =>
      match xs with
      | [] => .ok .undefined
      | x :: _ => .ok x
  | .obj fields => .ok (lookupField fields "0")

/-- Strict equality `v === lit` against a primitive literal; `NaN` equals nothing and
the two zeros are equal. -/
def strictEq : JSVal → JSVal → Bool
  | .undefined, .undefined => true
  | .null, .null => true
  | .bool a, .bool b => a == b
  | .num a, .num b =>
      if a.isNaN || b.isNaN then false
      else if a.isInf || b.isInf then a == b
      else decide (a.value = b.value)
  | .str a, .str b => a == b
  | _, _ => false

/-! ## The world outside `server.js` -/

/-- Which of the identifiers that `server.js` uses without declaring are in scope. -/
structure Globals where
  /-- the error-class identifiers in scope -/
  errorClasses : List String
  /-- the `database` module, if in scope: the awaited outcome of `database.<method>()` -/
  database : Option (String → Except JSError JSVal)

/-- The scope `server.js` sets up: it declares `mysql`, `express`, `app`, `pool`,
`replicaPool` and `errorHandler`, and nothing else. -/
def serverGlobals : Globals :=
  { errorClasses := [], database := none }

/-- The data sources and the number conversion of non-primitive operands. -/
structure World where
  /-- outcome of `await pool.query(sql, params)` -/
  pool : String → List JSVal → Except JSError JSVal
  /-- outcome of `await replicaPool.query(sql, params)` -/
  replicaPool : String → List JSVal → Except JSError JSVal
  /-- `ToNumber` on strings, arrays and objects -/
  numberOf : JSVal → JSNum

/-- `ToNumber`. -/
def toNumber (w : World) : JSVal → JSNum
  | .undefined => .nan
  | .null => .fin 0
  | .bool true => .fin 1
  | .bool false => .fin 0
  | .num n => n
  | v => w.numberOf v

/-- The expression `a - b`. -/
def jsSub (w : World) (a b : JSVal) : JSVal :=
  .num (JSNum.sub (toNumber w a) (toNumber w b))

/-- The expression `a / b`. -/
def jsDiv (w : World) (a b : JSVal) : JSVal :=
  .num (JSNum.div (toNumber w a) (toNumber w b))

/-- The expression `a > k` for a number literal `k`. -/
def jsGt (w : World) (a : JSVal) (k : ℚ) : Bool :=
  JSNum.gt (toNumber w a) (.fin k)

/-! ## Evaluation with a trace of issued statements -/

/-- The pool a statement is sent to. -/
inductive Role where
  | primary
  | replica
  deriving DecidableEq

/-- The statements handed to the pools so far, oldest first. -/
abbrev Trace := List (Role × String)

/-- A computation that may throw and that records the statements it issues. -/
def Eval (α : Type) : Type := Trace → Except JSError α × Trace

/-- Return a value. -/
def Eval.ret {α : Type} (a : α) : Eval α := fun t => (.ok a, t)

/-- Sequencing: a thrown error skips the continuation. -/
def Eval.andThen {α β : Type} (m : Eval α) (f : α → Eval β) : Eval β := fun t =>
  match m t with
  | (.ok a, t1) => f a t1
  | (.error e, t1) => (.error e, t1)

instance : Monad Eval where
  pure := Eval.ret
  bind := Eval.andThen

/-- The statement `throw e`, and a failing evaluation of a pure expression. -/
def Eval.lift {α : Type} (x : Except JSError α) : Eval α := fun t => (x, t)

/-- The block `try { m } catch (e) { h e }`. -/
def Eval.tryCatch {α : Type} (m : Eval α) (h : JSError → Eval α) : Eval α := fun t =>
  match m t with
  | (.ok a, t1) => (.ok a, t1)
  | (.error e, t1) => h e t1

/-- The expression `await pool.query(sql, params)`. -/
def poolQuery (w : World) (sql : String) (params : List JSVal) : Eval JSVal := fun t =>
  (w.pool sql params, t ++ [(Role.primary, sql)])

/-- The expression `await replicaPool.query(sql, params)`. -/
def replicaPoolQuery (w : World) (sql : String) (params : List JSVal) : Eval JSVal := fun t =>
  (w.replicaPool sql params, t ++ [(Role.replica, sql)])

/-- The expression `await database.<method>()`. -/
def databaseCall (g : Globals) (method : String) : Eval JSVal :=
  match g.database with
  | none => Eval.lift (.error (referenceError "database"))
  | some db => Eval.lift (db method)

/-- The expression `error instanceof <name>`. -/
def instanceOf (g : Globals) (error : JSError) (name : String) : Eval Bool :=
  if name ∈ g.errorClasses then Eval.ret (decide (name ∈ error.classes))
  else Eval.lift (.error (referenceError name))

/-- What a handler did with the request. -/
inductive Reply where
  /-- a response was sent: `res.json(body)`, `res.send(body)`, `res.status(s).json(body)` -/
  | sent (status : Nat) (body : JSVal)
  /-- the error was passed on: `next(err)` -/
  | forwarded (err : JSError)

/-- The statement `res.json(body)` (also `res.send(body)` for an object). -/
def resJson (body : JSVal) : Eval Reply := Eval.ret (.sent 200 body)

/-- The statement `res.status(500).json({ error: message })`. -/
def resError (message : String) : Eval Reply :=
  Eval.ret (.sent 500 (.obj [("error", .str message)]))

/-- The catch block shared in shape by seven handlers: the message is chosen by the
class of the error. -/
def errorChain (g : Globals) (error : JSError) (connMsg queryMsg unknownMsg : String) :
    Eval Reply := do
  if (← instanceOf g error "SomeDatabaseConnectionError") then
    resError connMsg
  else if (← instanceOf g error "SomeQueryError") then
    resError queryMsg
  else
    resError unknownMsg

/-! ## The route handlers -/

/-- The `try` block of `GET /api/replication/lag`. -/
def replicationLagTry (_g : Globals) (w : World) : Eval Reply := do
  let masterResults ←
    poolQuery w "SELECT EXTRACT(epoch FROM now()) AS current_timestamp" []
  let masterRows ← Eval.lift (getField masterResults "rows")
  let masterRow ← Eval.lift (index0 masterRows)
  let masterTimestamp ← Eval.lift (getField masterRow "current_timestamp")
  let replicaResults ←
    replicaPoolQuery w "SELECT EXTRACT(epoch FROM now()) AS current_timestamp" []
  let replicaRows ← Eval.lift (getField replicaResults "rows")
  let replicaRow ← Eval.lift (index0 replicaRows)
  let replicaTimestamp ← Eval.lift (getField replicaRow "current_timestamp")
  let lagSeconds := jsSub w replicaTimestamp masterTimestamp
  resJson (.obj [("lagSeconds", lagSeconds)])

/-- Handler of `GET /api/replication/lag`. -/
def replicationLag (g : Globals) (w : World) : Eval Reply :=
  Eval.tryCatch (replicationLagTry g w)
    (fun _err => resError "Unable to check replication lag")

/-- The `try` block of `GET /api/deadlocks`. -/
def deadlocksTry (_g : Globals) (w : World) : Eval Reply := do
  let results ← poolQuery w "SHOW ENGINE INNODB STATUS" []
  let rows ← Eval.lift (getField results "rows")
  let length ← Eval.lift (getField rows "length")
  let hasDeadlock := jsGt w length 0
  resJson (.obj [("hasDeadlock", .bool hasDeadlock)])

/-- Handler of `GET /api/deadlocks`. -/
def deadlocks (g : Globals) (w : World) : Eval Reply :=
  Eval.tryCatch (deadlocksTry g w)
    (fun _err => resError "Unable to check for deadlocks")

/-- The `try` block of `GET /api/data-migration-errors`. -/
def dataMigrationErrorsTry (_g : Globals) (w : World) : Eval Reply := do
  let missingDataRows ←
    poolQuery w "SELECT COUNT(*) AS count FROM table_with_missing_data" []
  let row ← Eval.lift (index0 missingDataRows)
  let count ← Eval.lift (getField row "count")
  let hasMissingData := jsGt w count 0
  resJson (.obj [("hasMissingData", .bool hasMissingData)])

/-- Handler of `GET /api/data-migration-errors`. -/
def dataMigrationErrors (g : Globals) (w : World) : Eval Reply :=
  Eval.tryCatch (dataMigrationErrorsTry g w)
    (fun error => errorChain g error
      "Unable to connect to the database"
      "Error while querying the database"
      "An unknown error occurred")

/-- The `try` block of `GET /api/hardware-failures`. -/
def hardwareFailuresTry (_g : Globals) (w : World) : Eval Reply := do
  let results ← poolQuery w "SELECT COUNT(*) AS count FROM table_with_failed_disk" []
  let row ← Eval.lift (index0 results)
  let count ← Eval.lift (getField row "count")
  let hasFailedDiskErrors := jsGt w count 0
  resJson (.obj [("hasFailedDiskErrors", .bool hasFailedDiskErrors)])

/-- Handler of `GET /api/hardware-failures`. -/
def hardwareFailures (g : Globals) (w : World) : Eval Reply :=
  Eval.tryCatch (hardwareFailuresTry g w)
    (fun error => errorChain g error
      "Unable to connect to the database. Please try again later."
      "Error while querying the database. Please try again later."
      "An unknown error occurred. Please try again later.")

/-- The `try` block of `GET /api/application-issues`. -/
def applicationIssuesTry (_g : Globals) (w : World) : Eval Reply := do
  let results ←
    poolQuery w "SELECT * FROM large_table WHERE some_field = ? LIMIT 1000" [.str "value"]
  let length ← Eval.lift (getField results "length")
  let isSlowQuery := jsGt w length 500
  resJson (.obj [("isSlowQuery", .bool isSlowQuery)])

/-- Handler of `GET /api/application-issues`. -/
def applicationIssues (g : Globals) (w : World) : Eval Reply :=
  Eval.tryCatch (applicationIssuesTry g w)
    (fun error => errorChain g error
      "Unable to connect to the database. Please check your database connection."
      "Error while querying the database. Please check your query syntax."
      "An unknown error occurred. Please try again later.")

/-- The `try` block of `GET /api/database-tuning-issues`. -/
def databaseTuningIssuesTry (_g : Globals) (w : World) : Eval Reply := do
  let results ←
    poolQuery w "EXPLAIN SELECT * FROM large_table WHERE some_field = ? LIMIT 1000"
      [.str "value"]
  let row ← Eval.lift (index0 results)
  let type ← Eval.lift (getField row "type")
  let isUsingInefficientPlan := strictEq type (.str "ALL")
  let row ← Eval.lift (index0 results)
  let rowsExamined ← Eval.lift (getField row "rows_examined")
  let isNotUsingQueryCaching := jsGt w rowsExamined 1000
  let row ← Eval.lift (index0 results)
  let rowsExamined ← Eval.lift (getField row "rows_examined")
  let row ← Eval.lift (index0 results)
  let rowsSent ← Eval.lift (getField row "rows_sent")
  let isUsingOutdatedStats := jsGt w (jsDiv w rowsExamined rowsSent) 10
  resJson (.obj [("isUsingInefficientPlan", .bool isUsingInefficientPlan),
    ("isNotUsingQueryCaching", .bool isNotUsingQueryCaching),
    ("isUsingOutdatedStats", .bool isUsingOutdatedStats)])

/-- Handler of `GET /api/database-tuning-issues`. -/
def databaseTuningIssues (g : Globals) (w : World) : Eval Reply :=
  Eval.tryCatch (databaseTuningIssuesTry g w)
    (fun error => errorChain g error
      "Unable to connect to the database"
      "Error while querying the database"
      "An unknown error occurred")

/-- The `try` block of `GET /api/database-monitoring`. -/
def databaseMonitoringTry (_g : Globals) (w : World) : Eval Reply := do
  let critical ←
    poolQuery w "SELECT COUNT(*) AS count FROM system_log WHERE severity = \"CRITICAL\"" []
  let row ← Eval.lift (index0 critical)
  let count ← Eval.lift (getField row "count")
  let hasCriticalEvents := jsGt w count 0
  let running ←
    poolQuery w
      "SELECT COUNT(*) AS count FROM information_schema.processlist WHERE time > 60" []
  let row ← Eval.lift (index0 running)
  let count ← Eval.lift (getField row "count")
  let hasLongRunningQueries := jsGt w count 0
  resJson (.obj [("hasCriticalEvents", .bool hasCriticalEvents),
    ("hasLongRunningQueries", .bool hasLongRunningQueries)])

/-- Handler of `GET /api/database-monitoring`. -/
def databaseMonitoring (g : Globals) (w : World) : Eval Reply :=
  Eval.tryCatch (databaseMonitoringTry g w)
    (fun error => errorChain g error
      "Unable to connect to the database"
      "Error while querying the database"
      "An unknown error occurred")

/-- The `try` block of `GET /api/compliance-issues`. -/
def complianceIssuesTry (_g : Globals) (w : World) : Eval Reply := do
  let hasPIIData ← poolQuery w "SELECT COUNT(*) AS count FROM table_with_pii_data" []
  let complianceAudit ←
    poolQuery w
      "SELECT COUNT(*) AS count FROM compliance_audit WHERE regulation = \"HIPAA\" AND result = \"FAIL\""
      []
  let row ← Eval.lift (index0 complianceAudit)
  let count ← Eval.lift (getField row "count")
  let meetsComplianceReq := strictEq count (.num (.fin 0))
  resJson (.obj [("hasPIIData", hasPIIData),
    ("meetsComplianceReq", .bool meetsComplianceReq)])

/-- Handler of `GET /api/compliance-issues`. -/
def complianceIssues (g : Globals) (w : World) : Eval Reply :=
  Eval.tryCatch (complianceIssuesTry g w)
    (fun error => errorChain g error
      "Unable to connect to the database"
      "Error while querying the database"
      "An unknown error occurred")

/-- The `try` block of `GET /api/schema-design-issues`. -/
def schemaDesignIssuesTry (_g : Globals) (w : World) : Eval Reply := do
  let hasRedundantData ← poolQuery w "SELECT COUNT(*) AS count FROM redundant_table" []
  let hasNormalizationProblems ←
    poolQuery w "SELECT COUNT(*) AS count FROM poorly_defined_relationships" []
  let redundantRow ← Eval.lift (index0 hasRedundantData)
  let redundantCount ← Eval.lift (getField redundantRow "count")
  let normalizationRow ← Eval.lift (index0 hasNormalizationProblems)
  let normalizationCount ← Eval.lift (getField normalizationRow "count")
  resJson (.obj [("hasRedundantData", redundantCount),
    ("hasNormalizationProblems", normalizationCount)])

/-- Handler of `GET /api/schema-design-issues`. -/
def schemaDesignIssues (g : Globals) (w : World) : Eval Reply :=
  Eval.tryCatch (schemaDesignIssuesTry g w)
    (fun error => errorChain g error
      "Unable to connect to the database"
      "Error while querying the database"
      "An unknown error occurred")

/-- The `try` block of `GET /api/database-resource-usage`. -/
def databaseResourceUsageTry (_g : Globals) (w : World) : Eval Reply := do
  let hasPeakHourQueryIssues ←
    poolQuery w
      "SELECT COUNT(*) AS count FROM information_schema.processlist WHERE time > 30 AND HOUR(NOW()) BETWEEN 8 AND 18"
      []
  resJson (.obj [("hasPeakHourQueryIssues", hasPeakHourQueryIssues)])

/-- Handler of `GET /api/database-resource-usage`. -/
def databaseResourceUsage (g : Globals) (w : World) : Eval Reply :=
  Eval.tryCatch (databaseResourceUsageTry g w)
    (fun err => Eval.ret (.forwarded err))

/-- The `try` block of `GET /api/database-fragmentation`. -/
def databaseFragmentationTry (g : Globals) (_w : World) : Eval Reply := do
  let fragmented ← databaseCall g "checkForFragmentation"
  resJson (.obj [("fragmented", fragmented)])

/-- Handler of `GET /api/database-fragmentation`. -/
def databaseFragmentation (g : Globals) (w : World) : Eval Reply :=
  Eval.tryCatch (databaseFragmentationTry g w)
    (fun _error => resError "An error occurred while checking for database fragmentation")

/-- The `try` block of `GET /api/database-configuration`. -/
def databaseConfigurationTry (g : Globals) (_w : World) : Eval Reply := do
  let configurationErrors ← databaseCall g "checkConfiguration"
  resJson (.obj [("configurationErrors", configurationErrors)])

/-- Handler of `GET /api/database-configuration`. -/
def databaseConfiguration (g : Globals) (w : World) : Eval Reply :=
  Eval.tryCatch (databaseConfigurationTry g w)
    (fun _err => resError "An error occurred while checking for database configuration")

/-- The `try` block of `GET /api/database-io`. -/
def databaseIoTry (g : Globals) (_w : World) : Eval Reply := do
  let ioBottleneck ← databaseCall g "checkIO"
  resJson (.obj [("ioBottleneck", ioBottleneck)])

/-- Handler of `GET /api/database-io`. -/
def databaseIo (g : Globals) (w : World) : Eval Reply :=
  Eval.tryCatch (databaseIoTry g w)
    (fun _err => resError "An error occurred while checking for disk I/O bottlenecks")

/-- The `try` block of `GET /api/database-management`. -/
def databaseManagementTry (g : Globals) (_w : World) : Eval Reply := do
  let managementIssues ← databaseCall g "checkManagement"
  resJson (.obj [("managementIssues", managementIssues)])

/-- Handler of `GET /api/database-management`. -/
def databaseManagement (g : Globals) (w : World) : Eval Reply :=
  Eval.tryCatch (databaseManagementTry g w)
    (fun _error =>
      resError "An error occurred while checking for poor database server management")

/-- The `try` block of `GET /api/database-software`. -/
def databaseSoftwareTry (g : Globals) (_w : World) : Eval Reply := do
  let softwareIssues ← databaseCall g "checkSoftware"
  resJson (.obj [("softwareIssues", softwareIssues)])

/-- Handler of `GET /api/database-software`. -/
def databaseSoftware (g : Globals) (w : World) : Eval Reply :=
  Eval.tryCatch (databaseSoftwareTry g w)
    (fun _error =>
      resError
        "An error occurred while checking for incompatible or outdated third-party software or drivers")

/-- The `try` block of `GET /api/database-disaster`. -/
def databaseDisasterTry (g : Globals) (_w : World) : Eval Reply := do
  let disasterPlanning ← databaseCall g "checkDisaster"
  resJson (.obj [("disasterPlanning", disasterPlanning)])

/-- Handler of `GET /api/database-disaster`. -/
def databaseDisaster (g : Globals) (w : World) : Eval Reply :=
  Eval.tryCatch (databaseDisasterTry g w)
    (fun _error =>
      resError
        "An error occurred while checking for insufficient disaster recovery or business continuity planning")

/-! ## The application -/

/-- The routes registered with `app.get`. -/
inductive Route where
  | replicationLag
  | deadlocks
  | dataMigrationErrors
  | hardwareFailures
  | applicationIssues
  | databaseTuningIssues
  | databaseMonitoring
  | complianceIssues
  | schemaDesignIssues
  | databaseResourceUsage
  | databaseFragmentation
  | databaseConfiguration
  | databaseIo
  | databaseManagement
  | databaseSoftware
  | databaseDisaster
  deriving DecidableEq

/-- The handler registered for a route. -/
def handler : Route → Globals → World → Eval Reply
  | .replicationLag => replicationLag
  | .deadlocks => deadlocks
  | .dataMigrationErrors => dataMigrationErrors
  | .hardwareFailures => hardwareFailures
  | .applicationIssues => applicationIssues
  | .databaseTuningIssues => databaseTuningIssues
  | .databaseMonitoring => databaseMonitoring
  | .complianceIssues => complianceIssues
  | .schemaDesignIssues => schemaDesignIssues
  | .databaseResourceUsage => databaseResourceUsage
  | .databaseFragmentation => databaseFragmentation
  | .databaseConfiguration => databaseConfiguration
  | .databaseIo => databaseIo
  | .databaseManagement => databaseManagement
  | .databaseSoftware => databaseSoftware
  | .databaseDisaster => databaseDisaster

/-- The `try` block of the handler registered for a route. -/
def tryBlock : Route → Globals → World → Eval Reply
  | .replicationLag => replicationLagTry
  | .deadlocks => deadlocksTry
  | .dataMigrationErrors => dataMigrationErrorsTry
  | .hardwareFailures => hardwareFailuresTry
  | .applicationIssues => applicationIssuesTry
  | .databaseTuningIssues => databaseTuningIssuesTry
  | .databaseMonitoring => databaseMonitoringTry
  | .complianceIssues => complianceIssuesTry
  | .schemaDesignIssues => schemaDesignIssuesTry
  | .databaseResourceUsage => databaseResourceUsageTry
  | .databaseFragmentation => databaseFragmentationTry
  | .databaseConfiguration => databaseConfigurationTry
  | .databaseIo => databaseIoTry
  | .databaseManagement => databaseManagementTry
  | .databaseSoftware => databaseSoftwareTry
  | .databaseDisaster => databaseDisasterTry

/-- The middleware `errorHandler`, reached through `next(err)`. -/
def errorHandler (_err : JSError) : Reply :=
  .sent 500 (.obj [("error", .str "Internal server error")])

/-- How a request ended. -/
inductive Outcome where
  /-- a response with this status and body was sent -/
  | response (status : Nat) (body : JSVal)
  /-- the handler threw: its promise is rejected and `server.js` sends nothing -/
  | unhandled (err : JSError)

/-- What Express makes of a finished handler: a sent response stands, an error passed
to `next` goes to `errorHandler`, a thrown error is left unanswered. -/
def settle : Except JSError Reply × Trace → Outcome × Trace
  | (.ok (.sent status body), t) => (.response status body, t)
  | (.ok (.forwarded err), t) =>
      match errorHandler err with
      | .sent status body => (.response status body, t)
      | .forwarded err2 => (.unhandled err2, t)
  | (.error err, t) => (.unhandled err, t)

/-- One request to a route, from an empty trace: the outcome and the statements issued. -/
def serve (r : Route) (g : Globals) (w : World) : Outcome × Trace :=
  settle (handler r g w [])

/-! ## Worlds used as concrete inputs -/

/-- A query result with one row `{ count: c }`. -/
def countRows (c : ℚ) : JSVal :=
  .arr [.obj [("count", .num (.fin c))]]

/-- A pg-style result `{ rows: [{ current_timestamp: ts }] }`. -/
def timestampResult (ts : ℚ) : JSVal :=
  .obj [("rows", .arr [.obj [("current_timestamp", .num (.fin ts))]])]

/-- The double nearest to 100.4. -/
def nearest100_4 : ℚ := 3532510957718733 / 35184372088832

/-- The primary answers every statement with timestamp 100.0, the replica with 100.4
(the double nearest to it). -/
def lagWorld : World :=
  { pool := fun _ _ => .ok (timestampResult 100)
    replicaPool := fun _ _ => .ok (timestampResult nearest100_4)
    numberOf := fun _ => .nan }

/-- The primary answers every statement with timestamp 1, the replica with 1e16. -/
def farWorld : World :=
  { pool := fun _ _ => .ok (timestampResult 1)
    replicaPool := fun _ _ => .ok (timestampResult 10000000000000000)
    numberOf := fun _ => .nan }

/-- The error of a refused connection. -/
def connectionRefused : JSError :=
  { classes := ["Error"], message := "connect ECONNREFUSED 127.0.0.1:3306" }

/-- Both pools reject every query with a refused connection. -/
def refusingWorld : World :=
  { pool := fun _ _ => .error connectionRefused
    replicaPool := fun _ _ => .error connectionRefused
    numberOf := fun _ => .nan }

/-- Every query on either pool resolves with the single row `{ count: c }`. -/
def countWorld (c : ℚ) : World :=
  { pool := fun _ _ => .ok (countRows c)
    replicaPool := fun _ _ => .ok (countRows c)
    numberOf := fun _ => .nan }

/-- The count of `redundant_table` is 3, every other count is 0. -/
def redundantWorld : World :=
  { pool := fun sql _ =>
      if sql = "SELECT COUNT(*) AS count FROM redundant_table" then .ok (countRows 3)
      else .ok (countRows 0)
    replicaPool := fun _ _ => .ok (countRows 0)
    numberOf := fun _ => .nan }

/-- The `EXPLAIN` statement resolves with one full-scan row. -/
def explainWorld : World :=
  { pool := fun _ _ =>
      .ok (.arr [.obj [("type", .str "ALL"), ("rows_examined", .num (.fin 5000)),
        ("rows_sent", .num (.fin 10))]])
    replicaPool := fun _ _ => .ok (.arr [])
    numberOf := fun _ => .nan }

/-- Every query on either pool resolves with no rows. -/
def emptyWorld : World :=
  { pool := fun _ _ => .ok (.arr [])
    replicaPool := fun _ _ => .ok (.arr [])
    numberOf := fun _ => .nan }

/-! ## Vocabulary of the properties -/

/-- A read statement begins with `SELECT`, `SHOW` or `EXPLAIN`. -/
def isReadStatement (sql : String) : Bool :=
  "SELECT".toList.isPrefixOf sql.toList || "SHOW".toList.isPrefixOf sql.toList
    || "EXPLAIN".toList.isPrefixOf sql.toList

/-- Every statement of the trace is a read statement. -/
def ReadOnly (t : Trace) : Prop := ∀ q ∈ t, isReadStatement q.2 = true

/-- A computation that adds only read statements to the trace. -/
def KeepsReadOnly {α : Type} (m : Eval α) : Prop := ∀ t, ReadOnly t → ReadOnly (m t).2

/-- The error kinds of the specification. -/
inductive ErrorKind where
  | connectionError
  | queryError
  | timeout
  | unknown
  deriving DecidableEq

/-- The message the specification assigns to each error kind, whatever the route. -/
def specMessage : ErrorKind → String
  | .connectionError => "unable to connect to the database"
  | .queryError => "error while querying the database"
  | .timeout => "operation timed out"
  | .unknown => "an unknown error occurred"

/-- The distinctions the catch blocks of `server.js` make between failures. -/
inductive ErrorClass where
  | connection
  | query
  | other
  deriving DecidableEq

/-- The class of a failure as the `instanceof` tests of the catch blocks see it: the
first test is against `SomeDatabaseConnectionError`, the second against
`SomeQueryError`. -/
def errorClass (e : JSError) : ErrorClass :=
  if "SomeDatabaseConnectionError" ∈ e.classes then .connection
  else if "SomeQueryError" ∈ e.classes then .query
  else .other

/-- The message literals of each route's catch block, by class of the failure; for
`/api/database-resource-usage` it is the literal of `errorHandler`. -/
def routeMessage : Route → ErrorClass → String
  | .replicationLag, _ => "Unable to check replication lag"
  | .deadlocks, _ => "Unable to check for deadlocks"
  | .dataMigrationErrors, .connection => "Unable to connect to the database"
  | .dataMigrationErrors, .query => "Error while querying the database"
  | .dataMigrationErrors, .other => "An unknown error occurred"
  | .hardwareFailures, .connection =>
      "Unable to connect to the database. Please try again later."
  | .hardwareFailures, .query => "Error while querying the database. Please try again later."
  | .hardwareFailures, .other => "An unknown error occurred. Please try again later."
  | .applicationIssues, .connection =>
      "Unable to connect to the database. Please check your database connection."
  | .applicationIssues, .query =>
      "Error while querying the database. Please check your query syntax."
  | .applicationIssues, .other => "An unknown error occurred. Please try again later."
  | .databaseTuningIssues, .connection => "Unable to connect to the database"
  | .databaseTuningIssues, .query => "Error while querying the database"
  | .databaseTuningIssues, .other => "An unknown error occurred"
  | .databaseMonitoring, .connection => "Unable to connect to the database"
  | .databaseMonitoring, .query => "Error while querying the database"
  | .databaseMonitoring, .other => "An unknown error occurred"
  | .complianceIssues, .connection => "Unable to connect to the database"
  | .complianceIssues, .query => "Error while querying the database"
  | .complianceIssues, .other => "An unknown error occurred"
  | .schemaDesignIssues, .connection => "Unable to connect to the database"
  | .schemaDesignIssues, .query => "Error while querying the database"
  | .schemaDesignIssues, .other => "An unknown error occurred"
  | .databaseResourceUsage, _ => "Internal server error"
  | .databaseFragmentation, _ =>
      "An error occurred while checking for database fragmentation"
  | .databaseConfiguration, _ =>
      "An error occurred while checking for database configuration"
  | .databaseIo, _ => "An error occurred while checking for disk I/O bottlenecks"
  | .databaseManagement, _ =>
      "An error occurred while checking for poor database server management"
  | .databaseSoftware, _ =>
      "An error occurred while checking for incompatible or outdated third-party software or drivers"
  | .databaseDisaster, _ =>
      "An error occurred while checking for insufficient disaster recovery or business continuity planning"

/-! ## Unfolding lemmas -/

@[simp] theorem Eval.bind_apply {α β : Type} (m : Eval α) (f : α → Eval β) (t : Trace) :
    (m >>= f) t = match m t with
      | (.ok a, t1) => f a t1
      | (.error e, t1) => (.error e, t1) := rfl

@[simp] theorem Eval.lift_apply {α : Type} (x : Except JSError α) (t : Trace) :
    Eval.lift x t = (x, t) := rfl

@[simp] theorem Eval.ret_apply {α : Type} (a : α) (t : Trace) :
    Eval.ret a t = (.ok a, t) := rfl

@[simp] theorem Eval.pure_apply {α : Type} (a : α) (t : Trace) :
    (pure a : Eval α) t = (.ok a, t) := rfl

/-! ## Numbers -/

@[simp] theorem JSNum.gt_fin (a b : ℚ) : JSNum.gt (.fin a) (.fin b) = decide (b < a) := by
  simp [JSNum.gt, JSNum.isNaN, JSNum.isInf, JSNum.value]

theorem roundDouble_zero : roundDouble 0 = .fin 0 := by
  simp [roundDouble]

theorem JSNum.sub_fin (a b : ℚ) : JSNum.sub (.fin a) (.fin b) = roundDouble (a - b) := by
  unfold JSNum.sub
  by_cases h : a - b = 0
  · have hab : a = b := sub_eq_zero.mp h
    subst hab
    simp [JSNum.isNaN, JSNum.isInf, JSNum.value, JSNum.isNeg, signedZero, roundDouble_zero]
  · simp [JSNum.isNaN, JSNum.isInf, JSNum.value, h]

theorem binade_eq (x : ℚ) (e : ℤ) (hx : 0 < x) (hlo : (2 : ℚ) ^ e ≤ x)
    (hhi : x < (2 : ℚ) ^ (e + 1)) (he : -1022 ≤ e) : binade x = e := by
  have h2 : (1 : ℕ) < 2 := by norm_num
  have hle : e ≤ Int.log 2 x :=
    (Int.zpow_le_iff_le_log h2 hx).1 (by exact_mod_cast hlo)
  have hlt : Int.log 2 x < e + 1 :=
    (Int.lt_zpow_iff_log_lt h2 hx).1 (by exact_mod_cast hhi)
  unfold binade
  omega

/-- Evaluation of `roundDouble` on a positive value whose binade is known. -/
theorem roundDouble_pos (x : ℚ) (e m : ℤ) (hx : 0 < x) (hlo : (2 : ℚ) ^ e ≤ x)
    (hhi : x < (2 : ℚ) ^ (e + 1)) (he : -1022 ≤ e)
    (hm : roundHalfEven (x / (2 : ℚ) ^ (e - 52)) = m) (hm0 : m ≠ 0)
    (hfin : (m : ℚ) * (2 : ℚ) ^ (e - 52) < (2 : ℚ) ^ (1024 : ℤ)) :
    roundDouble x = .fin (m * (2 : ℚ) ^ (e - 52)) := by
  have hb : binade x = e := binade_eq x e hx hlo hhi he
  unfold roundDouble
  simp only [abs_of_pos hx, hb, hm]
  rw [if_neg (ne_of_gt hx), if_neg (not_le.mpr hfin), if_neg hm0, if_neg (not_lt.mpr hx.le)]

theorem roundHalfEven_intCast (m : ℤ) : roundHalfEven (m : ℚ) = m := by
  simp [roundHalfEven]

/-- A value with a 53-bit significand and an exponent in range is a double. -/
theorem roundDouble_exact (m e : ℤ) (hm : 2 ^ 52 ≤ m) (hm2 : m < 2 ^ 53)
    (he : -1074 ≤ e) (he2 : e ≤ 971) : isDouble ((m : ℚ) * (2 : ℚ) ^ e) := by
  have h2 : (0 : ℚ) < (2 : ℚ) ^ e := zpow_pos (by norm_num) e
  have hmq : ((2 : ℚ) ^ (52 : ℤ)) ≤ (m : ℚ) := by
    have : ((2 ^ 52 : ℤ) : ℚ) ≤ (m : ℚ) := by exact_mod_cast hm
    norm_num at this ⊢; exact this
  have hmq2 : (m : ℚ) < ((2 : ℚ) ^ (53 : ℤ)) := by
    have : (m : ℚ) < ((2 ^ 53 : ℤ) : ℚ) := by exact_mod_cast hm2
    norm_num at this ⊢; exact this
  have hmpos : (0 : ℚ) < m := lt_of_lt_of_le (by norm_num) hmq
  have key := roundDouble_pos ((m : ℚ) * (2 : ℚ) ^ e) (e + 52) m (mul_pos hmpos h2)
    (by rw [show e + 52 = 52 + e by ring, zpow_add₀ (by norm_num)]
        exact mul_le_mul_of_nonneg_right hmq h2.le)
    (by rw [show e + 52 + 1 = 53 + e by ring, zpow_add₀ (by norm_num)]
        exact mul_lt_mul_of_pos_right hmq2 h2)
    (by omega)
    (by rw [show e + 52 - 52 = e by ring, mul_div_assoc, div_self (ne_of_gt h2), mul_one]
        exact roundHalfEven_intCast m)
    (by intro h; rw [h] at hmpos; simp at hmpos)
    (by rw [show e + 52 - 52 = e by ring]
        calc (m : ℚ) * (2 : ℚ) ^ e < (2 : ℚ) ^ (53 : ℤ) * (2 : ℚ) ^ e :=
              mul_lt_mul_of_pos_right hmq2 h2
          _ = (2 : ℚ) ^ (53 + e) := (zpow_add₀ (by norm_num) 53 e).symm
          _ ≤ (2 : ℚ) ^ (1024 : ℤ) := zpow_le_zpow_right₀ (by norm_num) (by omega))
  rw [show e + 52 - 52 = e by ring] at key
  exact key

theorem isDouble_100 : isDouble 100 := by
  have h := roundDouble_exact 7036874417766400 (-46) (by norm_num) (by norm_num)
    (by norm_num) (by norm_num)
  have e : ((7036874417766400 : ℤ) : ℚ) * (2 : ℚ) ^ (-46 : ℤ) = 100 := by norm_num
  rwa [e] at h

theorem isDouble_nearest100_4 : isDouble nearest100_4 := by
  have h := roundDouble_exact 7065021915437466 (-46) (by norm_num) (by norm_num)
    (by norm_num) (by norm_num)
  have e : ((7065021915437466 : ℤ) : ℚ) * (2 : ℚ) ^ (-46 : ℤ) = nearest100_4 := by
    norm_num [nearest100_4]
  rwa [e] at h

theorem isDouble_one : isDouble 1 := by
  have h := roundDouble_exact 4503599627370496 (-52) (by norm_num) (by norm_num)
    (by norm_num) (by norm_num)
  have e : ((4503599627370496 : ℤ) : ℚ) * (2 : ℚ) ^ (-52 : ℤ) = 1 := by norm_num
  rwa [e] at h

theorem isDouble_1e16 : isDouble 10000000000000000 := by
  have h := roundDouble_exact 5000000000000000 1 (by norm_num) (by norm_num)
    (by norm_num) (by norm_num)
  have e : ((5000000000000000 : ℤ) : ℚ) * (2 : ℚ) ^ (1 : ℤ) = 10000000000000000 := by norm_num
  rwa [e] at h

theorem roundDouble_lag : roundDouble (nearest100_4 - 100)
    = .fin (14073748835533 / 35184372088832) := by
  have h := roundDouble_exact 7205759403792896 (-54) (by norm_num) (by norm_num)
    (by norm_num) (by norm_num)
  have e : ((7205759403792896 : ℤ) : ℚ) * (2 : ℚ) ^ (-54 : ℤ) = nearest100_4 - 100 := by
    norm_num [nearest100_4]
  have e2 : nearest100_4 - 100 = 14073748835533 / 35184372088832 := by
    norm_num [nearest100_4]
  rw [e] at h
  unfold isDouble at h
  rw [h, e2]

theorem roundDouble_tie : roundDouble (10000000000000000 - 1) = .fin 10000000000000000 := by
  have hf : ⌊((10000000000000000 - 1 : ℚ) / (2 : ℚ) ^ ((53 : ℤ) - 52))⌋ = 4999999999999999 := by
    rw [Int.floor_eq_iff]; norm_num
  have hm : roundHalfEven ((10000000000000000 - 1 : ℚ) / (2 : ℚ) ^ ((53 : ℤ) - 52))
      = 5000000000000000 := by
    unfold roundHalfEven
    simp only [hf]
    norm_num
  have h := roundDouble_pos (10000000000000000 - 1) 53 5000000000000000 (by norm_num)
    (by norm_num) (by norm_num) (by norm_num) hm (by norm_num) (by norm_num)
  rw [h]; norm_num

theorem roundDouble_100_4 : roundDouble (502 / 5) = .fin nearest100_4 := by
  have hf : ⌊((502 / 5 : ℚ) / (2 : ℚ) ^ ((6 : ℤ) - 52))⌋ = 7065021915437465 := by
    rw [Int.floor_eq_iff]; norm_num
  have hm : roundHalfEven ((502 / 5 : ℚ) / (2 : ℚ) ^ ((6 : ℤ) - 52)) = 7065021915437466 := by
    unfold roundHalfEven
    simp only [hf]
    norm_num
  have h := roundDouble_pos (502 / 5) 6 7065021915437466 (by norm_num)
    (by norm_num) (by norm_num) (by norm_num) hm (by norm_num) (by norm_num)
  rw [h]; norm_num [nearest100_4]

theorem roundDouble_0_4 : roundDouble (2 / 5) = .fin (3602879701896397 / 9007199254740992) := by
  have hf : ⌊((2 / 5 : ℚ) / (2 : ℚ) ^ ((-2 : ℤ) - 52))⌋ = 7205759403792793 := by
    rw [Int.floor_eq_iff]; norm_num
  have hm : roundHalfEven ((2 / 5 : ℚ) / (2 : ℚ) ^ ((-2 : ℤ) - 52)) = 7205759403792794 := by
    unfold roundHalfEven
    simp only [hf]
    norm_num
  have h := roundDouble_pos (2 / 5) (-2) 7205759403792794 (by norm_num)
    (by norm_num) (by norm_num) (by norm_num) hm (by norm_num) (by norm_num)
  rw [h]; norm_num

/-! ## C4: replication lag -/

/-- The replication-lag route answers 200 with the difference of the two timestamps as
`-` computes it. -/
theorem replicationLag_reports (g : Globals) (w : World) (p r : ℚ)
    (m mrows mrow s srows srow : JSVal)
    (hm : w.pool "SELECT EXTRACT(epoch FROM now()) AS current_timestamp" [] = .ok m)
    (hm1 : getField m "rows" = .ok mrows) (hm2 : index0 mrows = .ok mrow)
    (hm3 : getField mrow "current_timestamp" = .ok (.num (.fin p)))
    (hs : w.replicaPool "SELECT EXTRACT(epoch FROM now()) AS current_timestamp" [] = .ok s)
    (hs1 : getField s "rows" = .ok srows) (hs2 : index0 srows = .ok srow)
    (hs3 : getField srow "current_timestamp" = .ok (.num (.fin r))) :
    (serve .replicationLag g w).1
      = .response 200 (.obj [("lagSeconds", .num (roundDouble (r - p)))]) := by
  simp [serve, settle, handler, replicationLag, replicationLagTry, Eval.tryCatch, poolQuery,
    replicaPoolQuery, resJson, hm, hm1, hm2, hm3, hs, hs1, hs2, hs3, jsSub, toNumber,
    JSNum.sub_fin]

theorem timestampResult_rows (ts : ℚ) :
    getField (timestampResult ts) "rows"
      = .ok (.arr [.obj [("current_timestamp", .num (.fin ts))]]) := by
  simp [timestampResult, getField, lookupField]

theorem timestampResult_row (ts : ℚ) :
    index0 (.arr [.obj [("current_timestamp", .num (.fin ts))]])
      = .ok (.obj [("current_timestamp", .num (.fin ts))]) := by
  simp [index0]

theorem timestampResult_field (ts : ℚ) :
    getField (.obj [("current_timestamp", .num (.fin ts))]) "current_timestamp"
      = .ok (.num (.fin ts)) := by
  simp [getField, lookupField]

/-- C4 as the code has it: whenever the primary's result carries the double `p` and the
replica's the double `r` (as `results.rows[0].current_timestamp`), the replication-lag
route answers 200 with `lagSeconds` the double nearest to `r - p`, ties to even. -/
theorem replication_lag_rounded (g : Globals) (w : World) (p r : ℚ)
    (m mrows mrow s srows srow : JSVal) (_hp : isDouble p) (_hr : isDouble r)
    (hm : w.pool "SELECT EXTRACT(epoch FROM now()) AS current_timestamp" [] = .ok m)
    (hm1 : getField m "rows" = .ok mrows) (hm2 : index0 mrows = .ok mrow)
    (hm3 : getField mrow "current_timestamp" = .ok (.num (.fin p)))
    (hs : w.replicaPool "SELECT EXTRACT(epoch FROM now()) AS current_timestamp" [] = .ok s)
    (hs1 : getField s "rows" = .ok srows) (hs2 : index0 srows = .ok srow)
    (hs3 : getField srow "current_timestamp" = .ok (.num (.fin r))) :
    (serve .replicationLag g w).1
      = .response 200 (.obj [("lagSeconds", .num (roundDouble (r - p)))]) :=
  replicationLag_reports g w p r m mrows mrow s srows srow hm hm1 hm2 hm3 hs hs1 hs2 hs3

/-- Witness of C4 as the code has it: the primary reports 100.0 and the replica 100.4, both
doubles, and the route answers with the double nearest to their difference, which is the
difference itself, 0.4000000000000057. -/
theorem replication_lag_rounded_witness :
    isDouble 100 ∧ isDouble nearest100_4 ∧
    (serve .replicationLag serverGlobals lagWorld).1
      = .response 200 (.obj [("lagSeconds", .num (roundDouble (nearest100_4 - 100)))]) ∧
    roundDouble (nearest100_4 - 100) = .fin (14073748835533 / 35184372088832) :=
  ⟨isDouble_100, isDouble_nearest100_4,
    replication_lag_rounded serverGlobals lagWorld 100 nearest100_4
      (timestampResult 100) _ _ (timestampResult nearest100_4) _ _
      isDouble_100 isDouble_nearest100_4
      rfl (timestampResult_rows 100) (timestampResult_row 100) (timestampResult_field 100)
      rfl (timestampResult_rows nearest100_4) (timestampResult_row nearest100_4)
      (timestampResult_field nearest100_4),
    roundDouble_lag⟩

/-- C4 fails as stated.  With the doubles 1 and 1e16 the route reports 1e16, which is not
their difference 9999999999999999.  With 100.0 and 100.4 (the double that `100.4` denotes)
it reports 0.4000000000000057, which is neither 0.4 nor the double nearest to 0.4. -/
theorem replication_lag_not_exact :
    (isDouble 1 ∧ isDouble 10000000000000000 ∧
      (serve .replicationLag serverGlobals farWorld).1
        = .response 200 (.obj [("lagSeconds", .num (.fin 10000000000000000))]) ∧
      (10000000000000000 : ℚ) ≠ 10000000000000000 - 1) ∧
    (isDouble 100 ∧ roundDouble (502 / 5) = .fin nearest100_4 ∧
      (serve .replicationLag serverGlobals lagWorld).1
        = .response 200
            (.obj [("lagSeconds", .num (.fin (14073748835533 / 35184372088832)))]) ∧
      (14073748835533 / 35184372088832 : ℚ) ≠ 2 / 5 ∧
      roundDouble (2 / 5) ≠ .fin (14073748835533 / 35184372088832)) := by
  have hfar := replicationLag_reports serverGlobals farWorld 1 10000000000000000
    (timestampResult 1) _ _ (timestampResult 10000000000000000) _ _
    rfl (timestampResult_rows 1) (timestampResult_row 1) (timestampResult_field 1)
    rfl (timestampResult_rows _) (timestampResult_row _) (timestampResult_field _)
  have hlag := replicationLag_reports serverGlobals lagWorld 100 nearest100_4
    (timestampResult 100) _ _ (timestampResult nearest100_4) _ _
    rfl (timestampResult_rows 100) (timestampResult_row 100) (timestampResult_field 100)
    rfl (timestampResult_rows _) (timestampResult_row _) (timestampResult_field _)
  rw [roundDouble_tie] at hfar
  rw [roundDouble_lag] at hlag
  refine ⟨⟨isDouble_one, isDouble_1e16, hfar, by norm_num⟩,
    ⟨isDouble_100, roundDouble_100_4, hlag, by norm_num, ?_⟩⟩
  rw [roundDouble_0_4]
  intro h
  injection h with h
  norm_num at h

/-! ## C6: count-threshold checks -/

/-- C6: when the first row of the query result carries the count `c`, the
hardware-failures route answers 200 with the single field `hasFailedDiskErrors`, a boolean
that is true exactly when `c > 0`, and the data-migration-errors route answers 200 with
the single field `hasMissingData`, true exactly when `c > 0`. -/
theorem count_threshold_checks (g : Globals) (w : World) (c : ℚ) (results row : JSVal)
    (hrow : index0 results = .ok row)
    (hcount : getField row "count" = .ok (.num (.fin c))) :
    (w.pool "SELECT COUNT(*) AS count FROM table_with_failed_disk" [] = .ok results →
      (serve .hardwareFailures g w).1
        = .response 200 (.obj [("hasFailedDiskErrors", .bool (decide (0 < c)))])) ∧
    (w.pool "SELECT COUNT(*) AS count FROM table_with_missing_data" [] = .ok results →
      (serve .dataMigrationErrors g w).1
        = .response 200 (.obj [("hasMissingData", .bool (decide (0 < c)))])) := by
  constructor
  · intro hq
    simp [serve, settle, handler, hardwareFailures, hardwareFailuresTry, Eval.tryCatch, poolQuery,
      resJson, hq, hrow, hcount, jsGt, toNumber]
  · intro hq
    simp [serve, settle, handler, dataMigrationErrors, dataMigrationErrorsTry, Eval.tryCatch,
      poolQuery, resJson, hq, hrow, hcount, jsGt, toNumber]

/-- Witness of C6: with the single row `{ count: 3 }` both routes report `true`. -/
theorem count_threshold_checks_witness :
    (serve .hardwareFailures serverGlobals (countWorld 3)).1
        = .response 200 (.obj [("hasFailedDiskErrors", .bool true)]) ∧
    (serve .dataMigrationErrors serverGlobals (countWorld 3)).1
        = .response 200 (.obj [("hasMissingData", .bool true)]) := by
  have h := count_threshold_checks serverGlobals (countWorld 3) 3 (countRows 3)
    (.obj [("count", .num (.fin 3))]) (by simp [countRows, index0])
    (by simp [getField, lookupField])
  have h3 : decide ((0 : ℚ) < 3) = true := by norm_num
  rw [h3] at h
  exact ⟨h.1 rfl, h.2 rfl⟩

/-! ## C7: the tuning check -/

/-- C7: when the first row of the `EXPLAIN` result has the fields `type`, `rows_examined`
and `rows_sent`, the database-tuning-issues route answers 200 with exactly the three
boolean fields `isUsingInefficientPlan`, `isNotUsingQueryCaching` and
`isUsingOutdatedStats`; the first is true exactly when `type` is the string `'ALL'`, the
second exactly when `rows_examined > 1000`. -/
theorem tuning_check (g : Globals) (w : World) (results row type : JSVal)
    (examined sent : ℚ)
    (hq : w.pool "EXPLAIN SELECT * FROM large_table WHERE some_field = ? LIMIT 1000"
      [.str "value"] = .ok results)
    (hrow : index0 results = .ok row)
    (htype : getField row "type" = .ok type)
    (hexamined : getField row "rows_examined" = .ok (.num (.fin examined)))
    (hsent : getField row "rows_sent" = .ok (.num (.fin sent))) :
    ∃ inefficient outdated : Bool,
      (serve .databaseTuningIssues g w).1
        = .response 200 (.obj [("isUsingInefficientPlan", .bool inefficient),
            ("isNotUsingQueryCaching", .bool (decide (1000 < examined))),
            ("isUsingOutdatedStats", .bool outdated)]) ∧
      (inefficient = true ↔ type = .str "ALL") := by
  refine ⟨strictEq type (.str "ALL"),
    jsGt w (jsDiv w (.num (.fin examined)) (.num (.fin sent))) 10, ?_, ?_⟩
  · simp [serve, settle, handler, databaseTuningIssues, databaseTuningIssuesTry, Eval.tryCatch,
      poolQuery, resJson, hq, hrow, htype, hexamined, hsent, jsGt, toNumber]
  · cases type <;> simp [strictEq]

/-- Witness of C7: a full-scan row examining 5000 rows. -/
theorem tuning_check_witness :
    ∃ inefficient outdated : Bool,
      (serve .databaseTuningIssues serverGlobals explainWorld).1
        = .response 200 (.obj [("isUsingInefficientPlan", .bool inefficient),
            ("isNotUsingQueryCaching", .bool (decide ((1000 : ℚ) < 5000))),
            ("isUsingOutdatedStats", .bool outdated)]) ∧
      (inefficient = true ↔ JSVal.str "ALL" = .str "ALL") :=
  tuning_check serverGlobals explainWorld
    (.arr [.obj [("type", .str "ALL"), ("rows_examined", .num (.fin 5000)),
      ("rows_sent", .num (.fin 10))]])
    (.obj [("type", .str "ALL"), ("rows_examined", .num (.fin 5000)),
      ("rows_sent", .num (.fin 10))])
    (.str "ALL") 5000 10 rfl (by simp [index0]) (by simp [getField, lookupField])
    (by simp [getField, lookupField]) (by simp [getField, lookupField])

/-! ## C5: the checks only read -/

theorem keeps_ret {α : Type} (a : α) : KeepsReadOnly (Eval.ret a) := fun _ h => h

theorem keeps_lift {α : Type} (x : Except JSError α) : KeepsReadOnly (Eval.lift x) :=
  fun _ h => h

theorem keeps_bind {α β : Type} {m : Eval α} {f : α → Eval β} (hm : KeepsReadOnly m)
    (hf : ∀ a, KeepsReadOnly (f a)) : KeepsReadOnly (m >>= f) := by
  intro t ht
  have h1 := hm t ht
  rw [Eval.bind_apply]
  rcases hmt : m t with ⟨x, t1⟩
  rw [hmt] at h1
  cases x with
  | ok a => exact hf a t1 h1
  | error e => exact h1

theorem keeps_tryCatch {α : Type} {m : Eval α} {h : JSError → Eval α}
    (hm : KeepsReadOnly m) (hh : ∀ e, KeepsReadOnly (h e)) :
    KeepsReadOnly (Eval.tryCatch m h) := by
  intro t ht
  have h1 := hm t ht
  unfold Eval.tryCatch
  rcases hmt : m t with ⟨x, t1⟩
  rw [hmt] at h1
  cases x with
  | ok a => exact h1
  | error e => exact hh e t1 h1

theorem keeps_poolQuery (w : World) (sql : String) (params : List JSVal)
    (hsql : isReadStatement sql = true) : KeepsReadOnly (poolQuery w sql params) := by
  intro t ht q hq
  simp only [poolQuery, List.mem_append, List.mem_singleton] at hq
  rcases hq with hq | hq
  · exact ht q hq
  · rw [hq]; exact hsql

theorem keeps_replicaPoolQuery (w : World) (sql : String) (params : List JSVal)
    (hsql : isReadStatement sql = true) : KeepsReadOnly (replicaPoolQuery w sql params) := by
  intro t ht q hq
  simp only [replicaPoolQuery, List.mem_append, List.mem_singleton] at hq
  rcases hq with hq | hq
  · exact ht q hq
  · rw [hq]; exact hsql

theorem keeps_databaseCall (g : Globals) (method : String) :
    KeepsReadOnly (databaseCall g method) := by
  unfold databaseCall
  cases g.database <;> exact keeps_lift _

theorem keeps_instanceOf (g : Globals) (e : JSError) (name : String) :
    KeepsReadOnly (instanceOf g e name) := by
  unfold instanceOf
  split
  · exact keeps_ret _
  · exact keeps_lift _

theorem keeps_errorChain (g : Globals) (e : JSError) (a b c : String) :
    KeepsReadOnly (errorChain g e a b c) := by
  unfold errorChain
  refine keeps_bind (keeps_instanceOf _ _ _) (fun x => ?_)
  split
  · exact keeps_ret _
  · refine keeps_bind (keeps_instanceOf _ _ _) (fun y => ?_)
    split <;> exact keeps_ret _

theorem keeps_handler (r : Route) (g : Globals) (w : World) :
    KeepsReadOnly (handler r g w) := by
  cases r <;>
  · simp only [handler, replicationLag, replicationLagTry, deadlocks, deadlocksTry,
      dataMigrationErrors, dataMigrationErrorsTry, hardwareFailures, hardwareFailuresTry,
      applicationIssues, applicationIssuesTry, databaseTuningIssues, databaseTuningIssuesTry,
      databaseMonitoring, databaseMonitoringTry, complianceIssues, complianceIssuesTry,
      schemaDesignIssues, schemaDesignIssuesTry, databaseResourceUsage,
      databaseResourceUsageTry, databaseFragmentation, databaseFragmentationTry,
      databaseConfiguration, databaseConfigurationTry, databaseIo, databaseIoTry,
      databaseManagement, databaseManagementTry, databaseSoftware, databaseSoftwareTry,
      databaseDisaster, databaseDisasterTry]
    refine keeps_tryCatch ?_ ?_
    · repeat first
        | exact keeps_ret _
        | exact keeps_lift _
        | exact keeps_databaseCall _ _
        | exact keeps_poolQuery _ _ _ (by decide)
        | exact keeps_replicaPoolQuery _ _ _ (by decide)
        | refine keeps_bind ?_ (fun _ => ?_)
    · intro e
      first
        | exact keeps_ret _
        | exact keeps_errorChain _ _ _ _ _

theorem serve_trace (r : Route) (g : Globals) (w : World) :
    (serve r g w).2 = (handler r g w []).2 := by
  unfold serve
  rcases handler r g w [] with ⟨x, t⟩
  cases x with
  | error e => rfl
  | ok reply => cases reply <;> rfl

/-- C5: on every route, in every scope and whatever the pools answer, each statement the
handler hands to the primary or the replica pool begins with `SELECT`, `SHOW` or
`EXPLAIN`. -/
theorem checks_read_only (r : Route) (g : Globals) (w : World) :
    ∀ q ∈ (serve r g w).2, isReadStatement q.2 = true := by
  rw [serve_trace]
  exact keeps_handler r g w [] (fun q hq => absurd hq (List.not_mem_nil q))

/-- The trace is a real record: the replication-lag route issues its statement once on
each pool. -/
theorem replication_lag_trace :
    (serve .replicationLag serverGlobals lagWorld).2
      = [(Role.primary, "SELECT EXTRACT(epoch FROM now()) AS current_timestamp"),
         (Role.replica, "SELECT EXTRACT(epoch FROM now()) AS current_timestamp")] := by
  simp [serve, settle, handler, replicationLag, replicationLagTry, Eval.tryCatch, poolQuery,
    replicaPoolQuery, resJson, lagWorld, timestampResult, getField, lookupField, index0]

/-- Witness of C5: the statement the replication-lag route sends to the primary pool is in
its trace and is a read statement. -/
theorem checks_read_only_witness :
    ((Role.primary, "SELECT EXTRACT(epoch FROM now()) AS current_timestamp")
        ∈ (serve .replicationLag serverGlobals lagWorld).2) ∧
    isReadStatement "SELECT EXTRACT(epoch FROM now()) AS current_timestamp" = true :=
  have hmem : (Role.primary, "SELECT EXTRACT(epoch FROM now()) AS current_timestamp")
      ∈ (serve .replicationLag serverGlobals lagWorld).2 := by
    rw [replication_lag_trace]; simp
  ⟨hmem, checks_read_only .replicationLag serverGlobals lagWorld _ hmem⟩

/-! ## C1: failures and the catch blocks -/

/-- C1, the code at the failing input: in the scope `server.js` sets up, when the query of
`/api/data-migration-errors` is rejected, and also when it resolves with no rows, the
catch block itself throws a `ReferenceError` for `SomeDatabaseConnectionError`; the
handler sends no response and the failure leaves it. -/
theorem data_migration_failure_escapes :
    (serve .dataMigrationErrors serverGlobals refusingWorld).1
        = .unhandled (referenceError "SomeDatabaseConnectionError") ∧
    (serve .dataMigrationErrors serverGlobals emptyWorld).1
        = .unhandled (referenceError "SomeDatabaseConnectionError") := by
  constructor
  · simp [serve, settle, handler, dataMigrationErrors, dataMigrationErrorsTry, Eval.tryCatch,
      poolQuery, refusingWorld, errorChain, instanceOf, serverGlobals]
  · simp [serve, settle, handler, dataMigrationErrors, dataMigrationErrorsTry, Eval.tryCatch,
      poolQuery, emptyWorld, index0, getField, errorChain, instanceOf, serverGlobals]

/-! ## C3 and C8: the shape of the success bodies -/

/-- C3, the code at the failing input: when both counts of `/api/compliance-issues` are
0, the field `hasPIIData` of the 200 body is the whole query result, a list of rows. -/
theorem compliance_sends_raw_result :
    (serve .complianceIssues serverGlobals (countWorld 0)).1
      = .response 200 (.obj [("hasPIIData", .arr [.obj [("count", .num (.fin 0))]]),
          ("meetsComplianceReq", .bool true)]) := by
  simp [serve, settle, handler, complianceIssues, complianceIssuesTry, Eval.tryCatch, poolQuery,
    resJson, countWorld, countRows, index0, getField, lookupField, strictEq, JSNum.isNaN,
    JSNum.isInf, JSNum.value]

/-- C8, the code at the failing input: with counts 3 and 0 the body of
`/api/schema-design-issues` carries the two counts themselves, not booleans. -/
theorem schema_design_sends_counts :
    (serve .schemaDesignIssues serverGlobals redundantWorld).1
      = .response 200 (.obj [("hasRedundantData", .num (.fin 3)),
          ("hasNormalizationProblems", .num (.fin 0))]) := by
  simp [serve, settle, handler, schemaDesignIssues, schemaDesignIssuesTry, Eval.tryCatch, poolQuery,
    resJson, redundantWorld, countRows, index0, getField, lookupField]

/-! ## C2: the error messages -/

/-- The reply of a class-testing catch block, when it replies, is status 500 with the
literal that belongs to the class of the failure. -/
theorem errorChain_reply (g : Globals) (e : JSError) (a b c : String) (t t1 : Trace)
    (reply : Reply) (h : errorChain g e a b c t = (.ok reply, t1)) :
    reply = .sent 500 (.obj [("error", .str
      (match errorClass e with
        | .connection => a
        | .query => b
        | .other => c))]) := by
  unfold errorChain instanceOf at h
  unfold errorClass
  by_cases h1 : "SomeDatabaseConnectionError" ∈ g.errorClasses
  · by_cases h2 : "SomeDatabaseConnectionError" ∈ e.classes
    · simp [h1, h2, resError] at h
      simp [h2, h.1]
    · by_cases h3 : "SomeQueryError" ∈ g.errorClasses
      · by_cases h4 : "SomeQueryError" ∈ e.classes
        · simp [h1, h2, h3, h4, resError] at h
          simp [h2, h4, h.1]
        · simp [h1, h2, h3, h4, resError] at h
          simp [h2, h4, h.1]
      · simp [h1, h2, h3] at h
  · simp [h1] at h

/-- C2 as the code has it: on every route, when the `try` block fails with `e` and the
route replies, the reply is status 500 with body `{ error: m }` where `m` is the literal of
that route for the class of `e`; routes without a class test have one literal for all
failures. -/
theorem error_message_by_route (r : Route) (g : Globals) (w : World) (e : JSError)
    (t : Trace) (status : Nat) (body : JSVal)
    (hfail : tryBlock r g w [] = (.error e, t))
    (hreply : (serve r g w).1 = .response status body) :
    status = 500 ∧ body = .obj [("error", .str (routeMessage r (errorClass e)))] := by
  have key : ∀ (a b c : String),
      (settle (errorChain g e a b c t)).1 = .response status body →
      status = 500 ∧ body = .obj [("error", .str
        (match errorClass e with
          | .connection => a
          | .query => b
          | .other => c))] := by
    intro a b c h
    rcases hc : errorChain g e a b c t with ⟨x, t1⟩
    rw [hc] at h
    cases x with
    | error err => simp [settle] at h
    | ok reply =>
      have hr := errorChain_reply g e a b c t t1 reply hc
      subst hr
      simp [settle] at h
      exact ⟨h.1.symm, h.2.symm⟩
  cases r <;>
    simp only [tryBlock] at hfail <;>
    simp only [serve, settle, handler, replicationLag, deadlocks, dataMigrationErrors,
      hardwareFailures, applicationIssues, databaseTuningIssues, databaseMonitoring,
      complianceIssues, schemaDesignIssues, databaseResourceUsage, databaseFragmentation,
      databaseConfiguration, databaseIo, databaseManagement, databaseSoftware,
      databaseDisaster, Eval.tryCatch, hfail] at hreply
  case replicationLag | deadlocks | databaseFragmentation | databaseConfiguration
      | databaseIo | databaseManagement | databaseSoftware | databaseDisaster
      | databaseResourceUsage =>
    simp [resError, errorHandler] at hreply
    simp [routeMessage, hreply.1.symm, hreply.2.symm]
  all_goals
    have h := key _ _ _ hreply
    cases hcls : errorClass e <;> simp [hcls] at h <;> simp [routeMessage, h.1, h.2]

/-- Witness of C2 as the code has it: the replication-lag route with both pools refusing
the connection; its `try` block fails with the refusal and the route replies with its one
literal. -/
theorem error_message_by_route_witness :
    tryBlock .replicationLag serverGlobals refusingWorld []
        = (.error connectionRefused,
            [(Role.primary, "SELECT EXTRACT(epoch FROM now()) AS current_timestamp")]) ∧
    (serve .replicationLag serverGlobals refusingWorld).1
        = .response 500 (.obj [("error", .str "Unable to check replication lag")]) ∧
    ((500 : Nat) = 500 ∧ JSVal.obj [("error", .str "Unable to check replication lag")]
      = .obj [("error", .str (routeMessage .replicationLag (errorClass connectionRefused)))]) :=
  have hfail : tryBlock .replicationLag serverGlobals refusingWorld []
      = (.error connectionRefused,
          [(Role.primary, "SELECT EXTRACT(epoch FROM now()) AS current_timestamp")]) := by
    simp [tryBlock, replicationLagTry, poolQuery, refusingWorld]
  have hreply : (serve .replicationLag serverGlobals refusingWorld).1
      = .response 500 (.obj [("error", .str "Unable to check replication lag")]) := by
    simp [serve, settle, handler, replicationLag, replicationLagTry, Eval.tryCatch, poolQuery,
      refusingWorld, resError]
  ⟨hfail, hreply,
    error_message_by_route .replicationLag serverGlobals refusingWorld connectionRefused
      [(Role.primary, "SELECT EXTRACT(epoch FROM now()) AS current_timestamp")] 500
      (.obj [("error", .str "Unable to check replication lag")]) hfail hreply⟩

/-- C2 fails as stated: with both pools refusing the connection, the replication-lag route
and the deadlocks route answer the same failure with different messages, and the message
of the replication-lag route is none of the four messages of the specification. -/
theorem error_message_differs_by_route :
    (serve .replicationLag serverGlobals refusingWorld).1
        = .response 500 (.obj [("error", .str "Unable to check replication lag")]) ∧
    (serve .deadlocks serverGlobals refusingWorld).1
        = .response 500 (.obj [("error", .str "Unable to check for deadlocks")]) ∧
    (serve .replicationLag serverGlobals refusingWorld).1
        ≠ (serve .deadlocks serverGlobals refusingWorld).1 ∧
    ∀ k : ErrorKind, (serve .replicationLag serverGlobals refusingWorld).1
        ≠ .response 500 (.obj [("error", .str (specMessage k))]) := by
  have h1 : (serve .replicationLag serverGlobals refusingWorld).1
      = .response 500 (.obj [("error", .str "Unable to check replication lag")]) := by
    simp [serve, settle, handler, replicationLag, replicationLagTry, Eval.tryCatch, poolQuery,
      refusingWorld, resError]
  have h2 : (serve .deadlocks serverGlobals refusingWorld).1
      = .response 500 (.obj [("error", .str "Unable to check for deadlocks")]) := by
    simp [serve, settle, handler, deadlocks, deadlocksTry, Eval.tryCatch, poolQuery,
      refusingWorld, resError]
  refine ⟨h1, h2, ?_, ?_⟩
  · rw [h1, h2]; simp
  · intro k
    rw [h1]
    cases k <;> simp [specMessage]

/-! ## What the catch blocks do achieve -/

/-- A handler whose catch block always ends in a 500 reply with an `error` field always
replies, and replies so whenever its `try` block fails. -/
theorem isolates_of_catch (m : Eval Reply) (h : JSError → Eval Reply)
    (hh : ∀ e t, ∃ msg, (settle (h e t)).1 = .response 500 (.obj [("error", .str msg)])) :
    (∃ status body, (settle (Eval.tryCatch m h [])).1 = .response status body) ∧
    ∀ e t, m [] = (.error e, t) →
      ∃ msg, (settle (Eval.tryCatch m h [])).1 = .response 500 (.obj [("error", .str msg)]) := by
  constructor
  · unfold Eval.tryCatch
    rcases m [] with ⟨x, t⟩
    cases x with
    | error e =>
      obtain ⟨msg, hmsg⟩ := hh e t
      exact ⟨500, _, hmsg⟩
    | ok reply =>
      cases reply with
      | sent s b => exact ⟨s, b, rfl⟩
      | forwarded e => exact ⟨500, _, rfl⟩
  · intro e t hm
    unfold Eval.tryCatch
    rw [hm]
    exact hh e t

/-- A route whose catch block does not test the class of the failure always replies, and
replies 500 with an `error` field whenever its `try` block fails. -/
theorem isolation_without_class_test (r : Route) (g : Globals) (w : World)
    (hr : r ∈ [Route.replicationLag, .deadlocks, .databaseResourceUsage,
      .databaseFragmentation, .databaseConfiguration, .databaseIo, .databaseManagement,
      .databaseSoftware, .databaseDisaster]) :
    (∃ status body, (serve r g w).1 = .response status body) ∧
    ∀ e t, tryBlock r g w [] = (.error e, t) →
      ∃ msg, (serve r g w).1 = .response 500 (.obj [("error", .str msg)]) := by
  simp only [List.mem_cons, List.mem_singleton, List.not_mem_nil, or_false] at hr
  rcases hr with h | h | h | h | h | h | h | h | h <;> subst h <;>
    simp only [serve, handler, tryBlock, replicationLag, deadlocks, databaseResourceUsage,
      databaseFragmentation, databaseConfiguration, databaseIo, databaseManagement,
      databaseSoftware, databaseDisaster] <;>
    exact isolates_of_catch _ _ (fun e t => ⟨_, rfl⟩)

/-- A route whose catch block tests the class of the failure replies 500 with an `error`
field on every failure of its `try` block, provided both class identifiers are in scope. -/
theorem isolation_with_classes_in_scope (r : Route) (g : Globals) (w : World)
    (e : JSError) (t : Trace)
    (h1 : "SomeDatabaseConnectionError" ∈ g.errorClasses)
    (h2 : "SomeQueryError" ∈ g.errorClasses)
    (hr : r ∈ [Route.dataMigrationErrors, .hardwareFailures, .applicationIssues,
      .databaseTuningIssues, .databaseMonitoring, .complianceIssues, .schemaDesignIssues])
    (hfail : tryBlock r g w [] = (.error e, t)) :
    ∃ m, (serve r g w).1 = .response 500 (.obj [("error", .str m)]) := by
  simp only [List.mem_cons, List.mem_singleton, List.not_mem_nil, or_false] at hr
  rcases hr with h | h | h | h | h | h | h <;> subst h <;>
    simp only [tryBlock] at hfail <;>
    simp only [serve, settle, handler, dataMigrationErrors, hardwareFailures, applicationIssues,
      databaseTuningIssues, databaseMonitoring, complianceIssues, schemaDesignIssues,
      Eval.tryCatch, hfail, errorChain, instanceOf] <;>
    by_cases c1 : "SomeDatabaseConnectionError" ∈ e.classes <;>
    by_cases c2 : "SomeQueryError" ∈ e.classes <;>
    simp [h1, h2, c1, c2, resError]

end DataTool
